import Mathlib

/-!
Shallow embedding of `src/aiob2/bucket.py` (class `Client`): the pagination
aggregator `list_file_names`, the bucket cache `list_buckets`, the resolver
`get_bucket_from_name`, the upload entry point `upload_file`, and the
session-closing logic `close` / `__aexit__`.

The HTTP transport (`HTTPClient` in `http.py`, not part of the sources) is an
external collaborator; each operation is parametrised by the transport's
behaviour.  File records are opaque, so the aggregator is parametric in the
record type `α`.  The `prefix`/`delimiter` arguments of `list_file_names` are
forwarded verbatim to every page request and never change across the loop, so
they are absorbed into the transport-behaviour function.
-/

namespace Aiob2

/-- Errors surfaced by the library.  `backblazeException` embeds
`errors.BackblazeException(msg)` as raised at `bucket.py` line 68.
`backend` is modelled from the spec: the transport's "backend error"
carrying the HTTP status and the server-provided payload (the transport
code `http.py` is not among the sources). -/
inductive B2Error where
  | backend (status : Nat) (payload : String)
  | backblazeException (msg : String)
deriving DecidableEq, Repr

/-- One parsed page returned by the transport's `list_file_names` call:
the `files` array and the `nextFileName` continuation marker
(`none` embeds JSON `null`). -/
structure Page (α : Type) where
  files : List α
  nextFileName : Option String
deriving DecidableEq, Repr

/-- The observable content of one page request issued to the transport:
the cursor and the `max_file_count` argument (`none` embeds Python `None`,
which the code passes through when the caller omitted the cap). -/
structure Request where
  startFileName : Option String
  maxFileCount : Option Int
deriving DecidableEq, Repr

/-- Outcome of a `list_file_names` run: normal return with the accumulated
list, propagation of a transport error (the Python exception discards the
local `files` accumulator, so `failed` carries no entries), or fuel
exhaustion of the embedding (the Python loop can run forever, e.g. on a
transport that always returns empty pages with a cursor). -/
inductive LfnResult (α : Type) where
  | done (files : List α)
  | failed (e : B2Error)
  | outOfFuel
deriving DecidableEq, Repr

/-- The `while continue_iteration` loop of `list_file_names`
(`bucket.py` lines 109-128), one constructor step per iteration.

State mirrors the Python locals: `files` is the accumulator, `sfn` is
`start_file_name` (the cursor), `actual` is `actual_file_count`, `maxFC` is
`max_file_count` as sent to the transport, `initMFC` is
`initial_max_file_count` after the `None -> 100` defaulting.
`trans k` is the transport's response to the `k`-th issued page request.
Note line 122 reads `actual_file_count += len(files)`: the length of the
whole accumulated list, not of the page just fetched. -/
def lfnRun {α : Type} (trans : Nat → Except B2Error (Page α)) :
    Nat → Nat → List α → Option String → Nat → Option Int → Int →
    List Request × LfnResult α
  | 0, _, _, _, _, _, _ => ([], .outOfFuel)
  | fuel + 1, k, files, sfn, actual, maxFC, initMFC =>
    let req : Request := ⟨sfn, maxFC⟩
    match trans k with
    | .error e => ([req], .failed e)
    | .ok page =>
      let files' := files ++ page.files
      let sfn' := page.nextFileName
      let actual' := actual + files'.length
      if initMFC ≤ (actual' : Int) ∨ sfn' = none then
        ([req], .done files')
      else
        let rest := lfnRun trans fuel (k + 1) files' sfn' actual'
          (some (initMFC - (actual' : Int))) initMFC
        (req :: rest.1, rest.2)

/-- `Client.list_file_names` (`bucket.py` lines 70-129): the pre-loop cap
normalisation of lines 97-107 followed by the loop.  When the caller passes
`None` the code sets `initial_max_file_count = 100` but leaves
`max_file_count` as `None` in the first request; when the caller passes a
value above 10000 the first request is clamped to 10000; otherwise the
value is used as is.  Returns the issued page requests and the outcome. -/
def list_file_names {α : Type} (trans : Nat → Except B2Error (Page α))
    (fuel : Nat) (start_file_name : Option String)
    (max_file_count : Option Int) : List Request × LfnResult α :=
  match max_file_count with
  | none => lfnRun trans fuel 0 [] start_file_name 0 none 100
  | some m =>
    lfnRun trans fuel 0 [] start_file_name 0
      (some (if m > 10000 then 10000 else m)) m

/-- Projection used to state results about a terminated run. -/
def doneLength {α : Type} : LfnResult α → Option Nat
  | .done files => some files.length
  | _ => none

/-- `BucketInfo` (declared in `http.py`, shape modelled from the spec's
data model): a bucket's name and its opaque identifier. -/
structure BucketInfo where
  bucketName : String
  bucketId : String
deriving DecidableEq, Repr

/-- The mutable state a `Client` instance carries for the claims at hand:
the `_bucket_list` cache, `None` after `__init__` (`bucket.py` line 34). -/
structure ClientState where
  bucketList : Option (List BucketInfo)
deriving DecidableEq, Repr

/-- The state of a fresh client, as set by `Client.__init__`. -/
def ClientState.init : ClientState := ⟨none⟩

/-- Renders a Python value interpolated into the f-string at `bucket.py`
line 68: a `str` renders as itself, `None` renders as `"None"`. -/
def pyFStr : Option String → String
  | some s => s
  | none => "None"

/-- `Client.list_buckets` (`bucket.py` lines 47-50).  `fetch` is the
response `_http._get_list_buckets()` would produce.  Returns the call's
result, the client state afterwards, and the number of bucket-list
transport calls issued (0 or 1).  On a transport error the assignment on
line 49 never happens, so the cache stays unpopulated. -/
def list_buckets (fetch : Except B2Error (List BucketInfo))
    (st : ClientState) :
    Except B2Error (List BucketInfo) × ClientState × Nat :=
  match st.bucketList with
  | some bl => (.ok bl, st, 0)
  | none =>
    match fetch with
    | .ok bl => (.ok bl, ⟨some bl⟩, 1)
    | .error e => (.error e, st, 1)

/-- `Client.get_bucket_from_name` (`bucket.py` lines 52-68): populate the
cache via `list_buckets`, scan the list with `bucket.bucketName ==
bucket_name` and return the first match, else raise
`BackblazeException(f"Unknown bucket {bucket_name}")`.  The argument is an
`Option String` because `upload_file` forwards its `bucket_name` parameter,
which may be Python `None`; `==` against `None` is `False` for every
string. -/
def get_bucket_from_name (fetch : Except B2Error (List BucketInfo))
    (st : ClientState) (bucket_name : Option String) :
    Except B2Error BucketInfo × ClientState × Nat :=
  match list_buckets fetch st with
  | (.error e, st1, n) => (.error e, st1, n)
  | (.ok bl, st1, n) =>
    match bl.find? (fun b => some b.bucketName == bucket_name) with
    | some b => (.ok b, st1, n)
    | none =>
      (.error (.backblazeException ("Unknown bucket " ++ pyFStr bucket_name)),
        st1, n)

/-- `Client.upload_file` (`bucket.py` lines 131-172), restricted to the
bucket-resolution logic of lines 160-171.  `upload bid` is the response
the transport's `upload_file` call with `bucket_id=bid` would produce
(content bytes, content type and file name are forwarded verbatim inside
it).  Returns the call's result, the `bucket_id` carried by the issued
upload request (`none` when no upload request was issued), the client
state afterwards, and the number of bucket-list transport calls. -/
def upload_file {α : Type} (fetch : Except B2Error (List BucketInfo))
    (upload : String → Except B2Error α) (st : ClientState)
    (bucket_id bucket_name : Option String) :
    Except B2Error α × Option String × ClientState × Nat :=
  match bucket_id with
  | some bid => (upload bid, some bid, st, 0)
  | none =>
    match get_bucket_from_name fetch st bucket_name with
    | (.error e, st1, n) => (.error e, none, st1, n)
    | (.ok b, st1, n) => (upload b.bucketId, some b.bucketId, st1, n)

/-- A cache-touching operation on one client instance, for stating the
cache-reuse invariant: a `list_buckets` call or a `get_bucket_from_name`
call with a given name. -/
inductive Op where
  | lb
  | gbfn (name : Option String)
deriving DecidableEq, Repr

/-- Runs one operation, keeping the state and the transport-call count. -/
def applyOp (fetch : Except B2Error (List BucketInfo))
    (st : ClientState) : Op → ClientState × Nat
  | .lb => ((list_buckets fetch st).2.1, (list_buckets fetch st).2.2)
  | .gbfn name =>
    ((get_bucket_from_name fetch st name).2.1,
      (get_bucket_from_name fetch st name).2.2)

/-- Runs a sequence of operations on one client instance, returning the
final state and the total number of bucket-list transport calls. -/
def runOps (fetch : Except B2Error (List BucketInfo)) :
    ClientState → List Op → ClientState × Nat
  | st, [] => (st, 0)
  | st, op :: ops =>
    let r := applyOp fetch st op
    let rest := runOps fetch r.1 ops
    (rest.1, r.2 + rest.2)

/-- The `_http._session` attribute as `close` inspects it.  Modelled from
the spec: the session resource is "acquired lazily on first transport use
if not supplied" (`http.py` is not among the sources), so it is `none`
until created and `some closedFlag` afterwards. -/
structure HTTPState where
  session : Option Bool
deriving DecidableEq, Repr

/-- `Client.close` (`bucket.py` lines 42-45): only when `_http._session`
is an `aiohttp.ClientSession` instance is it closed; when no session was
ever created nothing happens. -/
def close (h : HTTPState) : HTTPState :=
  match h.session with
  | none => h
  | some _ => ⟨some true⟩

/-- `Client.__aexit__` (`bucket.py` lines 39-40): unconditionally awaits
`self.close()`. -/
def aexit (h : HTTPState) : HTTPState := close h

/-! ### Concrete transport behaviours used as test inputs -/

/-- A transport returning pages of 10 entries each; 200 entries are
available in total (the cursor is `null` from the 20th page on). -/
def tenPages : Nat → Except B2Error (Page Nat) :=
  fun k => .ok ⟨List.replicate 10 k, if k < 19 then some ("c") else none⟩

/-- A transport returning two pages of 10 entries; the second page carries
a `null` cursor. -/
def twoPages : Nat → Except B2Error (Page Nat) :=
  fun k => .ok ⟨List.replicate 10 k, if k = 0 then some ("c") else none⟩

/-- A transport whose first page succeeds (3 entries, live cursor) and
whose second page request fails with a backend error. -/
def errPages : Nat → Except B2Error (Page Nat) :=
  fun k =>
    if k = 0 then .ok ⟨[1, 2, 3], some ("c")⟩
    else .error (.backend 500 ("boom"))

/-- A transport whose very first page already carries a `null` cursor. -/
def onePage : Nat → Except B2Error (Page Nat) :=
  fun _ => .ok ⟨[7], none⟩

/-- The two-bucket account of the testable-properties section of the
spec. -/
def demoBuckets : List BucketInfo := [⟨("a"), ("1")⟩, ⟨("b"), ("2")⟩]

/-! ### Helper lemmas about the pagination loop -/

/-- With fuel available, the first issued request carries the current
cursor and the current `max_file_count`. -/
theorem lfnRun_head {α : Type} (trans : Nat → Except B2Error (Page α))
    (fuel k : Nat) (files : List α) (sfn : Option String) (actual : Nat)
    (maxFC : Option Int) (initMFC : Int) :
    (lfnRun trans (fuel + 1) k files sfn actual maxFC initMFC).1.head?
      = some ⟨sfn, maxFC⟩ := by
  simp only [lfnRun]
  cases trans k with
  | error e => rfl
  | ok page =>
    simp only []
    split <;> rfl

/-- Every request issued by the loop carries a `max_file_count` bounded by
any `M` that bounds both the incoming `max_file_count` and
`initial_max_file_count`: the recomputed value is
`initial_max_file_count - actual_file_count ≤ initial_max_file_count`. -/
theorem lfnRun_maxFC_bound {α : Type} (trans : Nat → Except B2Error (Page α))
    (fuel : Nat) :
    ∀ (k : Nat) (files : List α) (sfn : Option String) (actual : Nat)
      (maxFC : Option Int) (initMFC M : Int),
      (∀ v, maxFC = some v → v ≤ M) → initMFC ≤ M →
      ∀ req ∈ (lfnRun trans fuel k files sfn actual maxFC initMFC).1,
        ∀ v, req.maxFileCount = some v → v ≤ M := by
  induction fuel with
  | zero =>
    intro k files sfn actual maxFC initMFC M _ _ req hreq
    simp [lfnRun] at hreq
  | succ fuel ih =>
    intro k files sfn actual maxFC initMFC M hmax hinit req hreq v hv
    simp only [lfnRun] at hreq
    cases htr : trans k with
    | error e =>
      rw [htr] at hreq
      simp only [List.mem_singleton] at hreq
      subst hreq
      exact hmax v hv
    | ok page =>
      rw [htr] at hreq
      simp only [] at hreq
      split at hreq
      · simp only [List.mem_singleton] at hreq
        subst hreq
        exact hmax v hv
      · simp only [List.mem_cons] at hreq
        rcases hreq with hreq | hreq
        · subst hreq
          exact hmax v hv
        · refine ih (k + 1) _ _ _ _ initMFC M ?_ hinit req hreq v hv
          intro w hw
          injection hw with hw
          subst hw
          have h0 : (0 : Int) ≤ ((actual + (files ++ page.files).length : Nat) : Int) :=
            Int.natCast_nonneg _
          omega

/-- Step equation: a transport error ends the run with `failed`. -/
theorem lfnRun_succ_err {α : Type} (trans : Nat → Except B2Error (Page α))
    (fuel k : Nat) (files : List α) (sfn : Option String) (actual : Nat)
    (maxFC : Option Int) (initMFC : Int) (e : B2Error)
    (htr : trans k = .error e) :
    lfnRun trans (fuel + 1) k files sfn actual maxFC initMFC
      = ([⟨sfn, maxFC⟩], .failed e) := by
  simp only [lfnRun, htr]

/-- Step equation: a page that reaches the cap or carries a `null` cursor
ends the run with the accumulated list. -/
theorem lfnRun_succ_stop {α : Type} (trans : Nat → Except B2Error (Page α))
    (fuel k : Nat) (files : List α) (sfn : Option String) (actual : Nat)
    (maxFC : Option Int) (initMFC : Int) (page : Page α)
    (htr : trans k = .ok page)
    (hc : initMFC ≤ ((actual + (files ++ page.files).length : Nat) : Int)
      ∨ page.nextFileName = none) :
    lfnRun trans (fuel + 1) k files sfn actual maxFC initMFC
      = ([⟨sfn, maxFC⟩], .done (files ++ page.files)) := by
  simp only [lfnRun, htr]
  rw [if_pos hc]

/-- Step equation: a page that neither reaches the cap nor ends the cursor
recomputes `max_file_count = initial_max_file_count - actual_file_count`
and loops. -/
theorem lfnRun_succ_cont {α : Type} (trans : Nat → Except B2Error (Page α))
    (fuel k : Nat) (files : List α) (sfn : Option String) (actual : Nat)
    (maxFC : Option Int) (initMFC : Int) (page : Page α)
    (htr : trans k = .ok page)
    (hc : ¬(initMFC ≤ ((actual + (files ++ page.files).length : Nat) : Int)
      ∨ page.nextFileName = none)) :
    lfnRun trans (fuel + 1) k files sfn actual maxFC initMFC
      = (⟨sfn, maxFC⟩ :: (lfnRun trans fuel (k + 1) (files ++ page.files)
            page.nextFileName (actual + (files ++ page.files).length)
            (some (initMFC - ((actual + (files ++ page.files).length : Nat) : Int)))
            initMFC).1,
          (lfnRun trans fuel (k + 1) (files ++ page.files)
            page.nextFileName (actual + (files ++ page.files).length)
            (some (initMFC - ((actual + (files ++ page.files).length : Nat) : Int)))
            initMFC).2) := by
  simp only [lfnRun, htr]
  rw [if_neg hc]

/-- If the `j`-th page request was issued and the transport answers it with
an error, the whole run fails with that error (the `files` accumulator is
discarded). -/
theorem lfnRun_error_prop {α : Type} (trans : Nat → Except B2Error (Page α))
    (fuel : Nat) :
    ∀ (k : Nat) (files : List α) (sfn : Option String) (actual : Nat)
      (maxFC : Option Int) (initMFC : Int) (j : Nat) (e : B2Error),
      j < (lfnRun trans fuel k files sfn actual maxFC initMFC).1.length →
      trans (k + j) = .error e →
      (lfnRun trans fuel k files sfn actual maxFC initMFC).2 = .failed e := by
  induction fuel with
  | zero =>
    intro k files sfn actual maxFC initMFC j e hj _
    simp [lfnRun] at hj
  | succ fuel ih =>
    intro k files sfn actual maxFC initMFC j e hj he
    cases htr : trans k with
    | error e0 =>
      rw [lfnRun_succ_err trans fuel k files sfn actual maxFC initMFC e0 htr] at hj ⊢
      simp only [List.length_singleton] at hj
      interval_cases j
      rw [Nat.add_zero, htr] at he
      injection he with he
      rw [he]
    | ok page =>
      by_cases hc : initMFC ≤ ((actual + (files ++ page.files).length : Nat) : Int)
          ∨ page.nextFileName = none
      · rw [lfnRun_succ_stop trans fuel k files sfn actual maxFC initMFC page htr hc] at hj ⊢
        simp only [List.length_singleton] at hj
        interval_cases j
        rw [Nat.add_zero, htr] at he
        exact absurd he (by simp)
      · rw [lfnRun_succ_cont trans fuel k files sfn actual maxFC initMFC page htr hc] at hj ⊢
        simp only [List.length_cons] at hj
        cases j with
        | zero =>
          rw [Nat.add_zero, htr] at he
          exact absurd he (by simp)
        | succ j =>
          have hlt : j < (lfnRun trans fuel (k + 1)
              (files ++ page.files) page.nextFileName
              (actual + (files ++ page.files).length)
              (some (initMFC - ((actual + (files ++ page.files).length : Nat) : Int)))
              initMFC).1.length := by omega
          have he1 : trans ((k + 1) + j) = .error e := by
            have : (k + 1) + j = k + (j + 1) := by omega
            rw [this]
            exact he
          exact ih (k + 1) _ _ _ _ _ j e hlt he1

/-- If the `i`-th page request was issued and the transport answers it with
a page whose continuation marker is `null`, the loop stops: exactly `i + 1`
requests are issued in total and the run returns normally. -/
theorem lfnRun_null_cursor_stops {α : Type}
    (trans : Nat → Except B2Error (Page α)) (fuel : Nat) :
    ∀ (k : Nat) (files : List α) (sfn : Option String) (actual : Nat)
      (maxFC : Option Int) (initMFC : Int) (i : Nat) (page : Page α),
      i < (lfnRun trans fuel k files sfn actual maxFC initMFC).1.length →
      trans (k + i) = .ok page → page.nextFileName = none →
      (lfnRun trans fuel k files sfn actual maxFC initMFC).1.length = i + 1
      ∧ ∃ fs, (lfnRun trans fuel k files sfn actual maxFC initMFC).2 = .done fs := by
  induction fuel with
  | zero =>
    intro k files sfn actual maxFC initMFC i page hi _ _
    simp [lfnRun] at hi
  | succ fuel ih =>
    intro k files sfn actual maxFC initMFC i page hi hp hn
    cases htr : trans k with
    | error e0 =>
      rw [lfnRun_succ_err trans fuel k files sfn actual maxFC initMFC e0 htr] at hi ⊢
      simp only [List.length_singleton] at hi
      interval_cases i
      rw [Nat.add_zero, htr] at hp
      exact absurd hp (by simp)
    | ok page0 =>
      by_cases hc : initMFC ≤ ((actual + (files ++ page0.files).length : Nat) : Int)
          ∨ page0.nextFileName = none
      · rw [lfnRun_succ_stop trans fuel k files sfn actual maxFC initMFC page0 htr hc] at hi ⊢
        simp only [List.length_singleton] at hi
        interval_cases i
        exact ⟨rfl, _, rfl⟩
      · rw [lfnRun_succ_cont trans fuel k files sfn actual maxFC initMFC page0 htr hc] at hi ⊢
        simp only [List.length_cons] at hi
        cases i with
        | zero =>
          rw [Nat.add_zero, htr] at hp
          injection hp with hp
          subst hp
          exact absurd (Or.inr hn) hc
        | succ i =>
          have hlt : i < (lfnRun trans fuel (k + 1)
              (files ++ page0.files) page0.nextFileName
              (actual + (files ++ page0.files).length)
              (some (initMFC - ((actual + (files ++ page0.files).length : Nat) : Int)))
              initMFC).1.length := by omega
          have hp1 : trans ((k + 1) + i) = .ok page := by
            have : (k + 1) + i = k + (i + 1) := by omega
            rw [this]
            exact hp
          have hrec := ih (k + 1) _ _ _ _ _ i page hlt hp1 hn
          refine ⟨?_, hrec.2⟩
          simp only [List.length_cons, hrec.1]

/-! ### Claim theorems -/

/-- Claim C1, code-bug evaluation: with a cap of 100 and a transport
returning pages of 10 entries (200 available in total), the run returns
only 40 entries, strictly fewer than `min 100 200 = 100`.  Line 122 of
`bucket.py` adds the length of the whole accumulated list (not of the
fetched page) to `actual_file_count`, so the loop stops after 4 pages. -/
theorem cap_undercount_eval :
    doneLength (list_file_names tenPages 10 none (some 100)).2 = some 40
    ∧ (list_file_names tenPages 10 none (some 100)).1.length = 4
    ∧ 40 < min 100 200 := by
  decide

/-- Claim C2 counterexample: with cap 50000, the first page request is
clamped to 10000, but after a 10-entry first page the recomputed
`max_file_count` is `50000 - 10` and the second page request carries
page size 49990 > 10000. -/
theorem page_size_clamp_counterexample :
    (list_file_names twoPages 5 none (some 50000)).1
      = [⟨none, some 10000⟩, ⟨some ("c"), some 49990⟩]
    ∧ (10000 : Int) < 49990 := by
  decide

/-- Claim C2 as amended: only the first page request is clamped to 10000;
every later request carries `cap - actual_file_count`, which is not
re-clamped and may exceed 10000, though it never exceeds the original cap,
so every issued page size is at most `max cap 10000`. -/
theorem page_size_bound {α : Type} (trans : Nat → Except B2Error (Page α))
    (fuel : Nat) (sfn : Option String) (c : Int) :
    (∀ req ∈ (list_file_names trans fuel sfn (some c)).1,
        ∀ v, req.maxFileCount = some v → v ≤ max c 10000)
    ∧ (∀ req, (list_file_names trans fuel sfn (some c)).1.head? = some req →
        ∀ v, req.maxFileCount = some v → v ≤ 10000) := by
  constructor
  · intro req hreq v hv
    simp only [list_file_names] at hreq
    refine lfnRun_maxFC_bound trans fuel 0 [] sfn 0 _ c (max c 10000) ?_
      (le_max_left _ _) req hreq v hv
    intro w hw
    injection hw with hw
    subst hw
    by_cases hgt : c > 10000
    · rw [if_pos hgt]
      exact le_max_right c 10000
    · rw [if_neg hgt]
      exact le_max_left c 10000
  · intro req hhead v hv
    cases fuel with
    | zero => simp [list_file_names, lfnRun] at hhead
    | succ fuel =>
      simp only [list_file_names] at hhead
      rw [lfnRun_head] at hhead
      injection hhead with hhead
      subst hhead
      have hv2 : some (if c > 10000 then (10000 : Int) else c) = some v := hv
      injection hv2 with hv2
      rw [← hv2]
      by_cases hgt : c > 10000
      · rw [if_pos hgt]
      · rw [if_neg hgt]
        omega

/-- Claim C2 witness: the second request of the counterexample run is
issued and its page size 49990 respects the amended bound. -/
theorem page_size_bound_witness :
    ((⟨some ("c"), some 49990⟩ : Request)
        ∈ (list_file_names twoPages 5 none (some 50000)).1)
    ∧ (49990 : Int) ≤ max 50000 10000 :=
  ⟨by decide,
    (page_size_bound twoPages 5 none 50000).1 ⟨some ("c"), some 49990⟩
      (by decide) 49990 rfl⟩

/-- Claim C3, code-bug evaluation: a cap of 0 is used literally (the single
request carries `max_file_count = 0` and the loop stops after one page with
10 entries), while a cap of 100 issues 4 requests and returns 40 entries;
an omitted cap leaves `max_file_count = None` in the first request instead
of 100.  None of the three calls issue the same requests. -/
theorem default_cap_eval :
    (list_file_names tenPages 10 none (some 0)).1 = [⟨none, some 0⟩]
    ∧ doneLength (list_file_names tenPages 10 none (some 0)).2 = some 10
    ∧ (list_file_names tenPages 10 none (some 100)).1.length = 4
    ∧ doneLength (list_file_names tenPages 10 none (some 100)).2 = some 40
    ∧ (list_file_names tenPages 10 none none).1.head? = some ⟨none, none⟩
    ∧ (list_file_names tenPages 10 none (some 100)).1.head?
        = some ⟨none, some 100⟩ := by
  decide

/-- Claim C5: if the response to the `i`-th page request carries a `null`
continuation marker, no further page request is issued (exactly `i + 1`
requests in total) and the call returns normally, regardless of the
accumulated count. -/
theorem cursor_termination {α : Type} (trans : Nat → Except B2Error (Page α))
    (fuel : Nat) (sfn : Option String) (cap : Option Int) (i : Nat)
    (page : Page α)
    (hi : i < (list_file_names trans fuel sfn cap).1.length)
    (hp : trans i = .ok page) (hn : page.nextFileName = none) :
    (list_file_names trans fuel sfn cap).1.length = i + 1
    ∧ ∃ fs, (list_file_names trans fuel sfn cap).2 = .done fs := by
  cases cap with
  | none =>
    simp only [list_file_names] at hi ⊢
    exact lfnRun_null_cursor_stops trans fuel 0 [] sfn 0 none 100 i page hi
      (by rw [Nat.zero_add]; exact hp) hn
  | some m =>
    simp only [list_file_names] at hi ⊢
    exact lfnRun_null_cursor_stops trans fuel 0 [] sfn 0 _ m i page hi
      (by rw [Nat.zero_add]; exact hp) hn

/-- Claim C5 witness: a first page of one entry with a `null` cursor stops
the run at one request even though the cap 100 is far from reached. -/
theorem cursor_termination_witness :
    (0 < (list_file_names onePage 5 none (some 100)).1.length)
    ∧ ((list_file_names onePage 5 none (some 100)).1.length = 0 + 1
        ∧ ∃ fs, (list_file_names onePage 5 none (some 100)).2 = .done fs) :=
  ⟨by decide,
    cursor_termination onePage 5 none (some 100) 0 ⟨[7], none⟩
      (by decide) rfl rfl⟩

/-- Claim C8: if the transport answers the `j`-th issued page request with
an error, the whole call fails with that same error; no accumulated
entries are returned. -/
theorem error_propagation {α : Type} (trans : Nat → Except B2Error (Page α))
    (fuel : Nat) (sfn : Option String) (cap : Option Int) (j : Nat)
    (e : B2Error)
    (hj : j < (list_file_names trans fuel sfn cap).1.length)
    (he : trans j = .error e) :
    (list_file_names trans fuel sfn cap).2 = .failed e := by
  cases cap with
  | none =>
    simp only [list_file_names] at hj ⊢
    exact lfnRun_error_prop trans fuel 0 [] sfn 0 none 100 j e hj
      (by rw [Nat.zero_add]; exact he)
  | some m =>
    simp only [list_file_names] at hj ⊢
    exact lfnRun_error_prop trans fuel 0 [] sfn 0 _ m j e hj
      (by rw [Nat.zero_add]; exact he)

/-- Claim C8 witness: a backend error on the second page request makes the
whole call fail with that error, discarding the 3 entries of the first
page. -/
theorem error_propagation_witness :
    (1 < (list_file_names errPages 5 none (some 100)).1.length)
    ∧ (list_file_names errPages 5 none (some 100)).2
        = .failed (.backend 500 ("boom")) :=
  ⟨by decide,
    error_propagation errPages 5 none (some 100) 1 (.backend 500 ("boom"))
      (by decide) rfl⟩

/-! ### Helper lemmas about the bucket cache and resolver -/

/-- Comparing a cached bucket name against Python `None` is always
`False`, so the scan of `get_bucket_from_name` never matches. -/
theorem find?_name_none (bl : List BucketInfo) :
    bl.find? (fun b => some b.bucketName == (none : Option String)) = none := by
  induction bl with
  | nil => rfl
  | cons b bl ih =>
    rw [List.find?_cons_of_neg, ih]
    simp only [Bool.not_eq_true]
    rfl

/-- On a populated cache, either client operation leaves the state
unchanged and issues no transport call. -/
theorem applyOp_cached (fetch : Except B2Error (List BucketInfo))
    (bl : List BucketInfo) (op : Op) :
    applyOp fetch ⟨some bl⟩ op = (⟨some bl⟩, 0) := by
  cases op with
  | lb => rfl
  | gbfn name =>
    simp only [applyOp]
    cases hfind : bl.find? (fun b => some b.bucketName == name) <;>
      simp [get_bucket_from_name, list_buckets, hfind]

/-- On a populated cache, a whole sequence of operations issues no
transport call and leaves the cache unchanged. -/
theorem runOps_cached (fetch : Except B2Error (List BucketInfo))
    (bl : List BucketInfo) (ops : List Op) :
    runOps fetch ⟨some bl⟩ ops = (⟨some bl⟩, 0) := by
  induction ops with
  | nil => rfl
  | cons op ops ih => simp [runOps, applyOp_cached, ih]

/-- On a fresh client with a succeeding transport, either operation
issues exactly one transport call and populates the cache. -/
theorem applyOp_first (bl : List BucketInfo) (op : Op) :
    applyOp (.ok bl) ⟨none⟩ op = (⟨some bl⟩, 1) := by
  cases op with
  | lb => rfl
  | gbfn name =>
    simp only [applyOp]
    cases hfind : bl.find? (fun b => some b.bucketName == name) <;>
      simp [get_bucket_from_name, list_buckets, hfind]

/-! ### Claim theorems about the bucket cache and resolver -/

/-- Claim C4: with the cache populated with `bl`, `get_bucket_from_name`
raises `BackblazeException ("Unknown bucket " ++ name)` — never a backend
error, so the two are distinguishable — exactly when no cached bucket has
name `name` (case-sensitive string equality); on a match it returns a
cached bucket with that exact name (hence with its identifier). -/
theorem resolver_scan_spec (fetch : Except B2Error (List BucketInfo))
    (st : ClientState) (bl : List BucketInfo) (name : String)
    (hst : st.bucketList = some bl) :
    ((get_bucket_from_name fetch st (some name)).1
        = .error (.backblazeException ("Unknown bucket " ++ name))
      ↔ ∀ b ∈ bl, b.bucketName ≠ name)
    ∧ (∀ s p, (get_bucket_from_name fetch st (some name)).1
        ≠ .error (.backend s p))
    ∧ (∀ b ∈ bl, b.bucketName = name →
        ∃ b2, (get_bucket_from_name fetch st (some name)).1 = .ok b2
          ∧ b2 ∈ bl ∧ b2.bucketName = name) := by
  have hlb : list_buckets fetch st = (.ok bl, st, 0) := by
    cases st with
    | mk obl =>
      simp only [ClientState.bucketList] at hst
      subst hst
      rfl
  cases hfind : bl.find? (fun b => some b.bucketName == some name) with
  | none =>
    have hres : (get_bucket_from_name fetch st (some name)).1
        = .error (.backblazeException ("Unknown bucket " ++ name)) := by
      simp only [get_bucket_from_name, hlb, hfind]
      rfl
    have hnone := List.find?_eq_none.mp hfind
    refine ⟨⟨fun _ b hb heq => ?_, fun _ => hres⟩, fun s p h => ?_,
      fun b hb heq => ?_⟩
    · exact hnone b hb (by rw [heq]; simp)
    · rw [hres] at h
      simp at h
    · exact absurd (by rw [heq]; simp) (hnone b hb)
  | some b0 =>
    have hname : b0.bucketName = name := by
      have hp := List.find?_some hfind
      have h1 : some b0.bucketName = some name := eq_of_beq hp
      injection h1
    have hmem : b0 ∈ bl := List.mem_of_find?_eq_some hfind
    have hres : (get_bucket_from_name fetch st (some name)).1 = .ok b0 := by
      simp only [get_bucket_from_name, hlb, hfind]
    refine ⟨⟨fun h => ?_, fun hall => absurd hname (hall b0 hmem)⟩,
      fun s p h => ?_, fun b hb heq => ⟨b0, hres, hmem, hname⟩⟩
    · rw [hres] at h
      simp at h
    · rw [hres] at h
      simp at h

/-- Claim C4 witness: resolving name `c` against the cached two-bucket
list raises `Unknown bucket c`. -/
theorem resolver_scan_spec_witness :
    ((⟨some demoBuckets⟩ : ClientState).bucketList = some demoBuckets)
    ∧ (get_bucket_from_name (.ok []) ⟨some demoBuckets⟩ (some ("c"))).1
        = .error (.backblazeException ("Unknown bucket " ++ ("c"))) :=
  ⟨rfl,
    (resolver_scan_spec (.ok []) ⟨some demoBuckets⟩ demoBuckets ("c")
        rfl).1.mpr (by decide)⟩

/-- Claim C6: on one client instance with a succeeding transport, any
non-empty sequence of `list_buckets` / `get_bucket_from_name` calls
(any names, any order) issues exactly one bucket-list transport call in
total: the first call fetches and populates the cache, every later call
reuses it. -/
theorem cache_reuse (bl : List BucketInfo) (ops : List Op) (h : ops ≠ []) :
    (runOps (.ok bl) ClientState.init ops).2 = 1 := by
  cases ops with
  | nil => exact absurd rfl h
  | cons op ops =>
    simp [runOps, ClientState.init, applyOp_first, runOps_cached]

/-- Claim C6 witness: a `list_buckets` call followed by
`get_bucket_from_name` calls for two different names issues one transport
call in total. -/
theorem cache_reuse_witness :
    (runOps (.ok demoBuckets) ClientState.init
        [.lb, .gbfn (some ("a")), .gbfn (some ("b"))]).2 = 1 :=
  cache_reuse demoBuckets [.lb, .gbfn (some ("a")), .gbfn (some ("b"))]
    (by decide)

/-- Claim C7: when both `bucket_id` and `bucket_name` are supplied, the
upload request carries the identifier, the resolver is not invoked, the
client state is untouched and no bucket-list transport call occurs. -/
theorem upload_precedence {α : Type} (fetch : Except B2Error (List BucketInfo))
    (upload : String → Except B2Error α) (st : ClientState)
    (bid name : String) :
    upload_file fetch upload st (some bid) (some name)
      = (upload bid, some bid, st, 0) := rfl

/-- Claim C9: with neither `bucket_id` nor `bucket_name`, the resolver is
invoked with `None` on the fresh client: one bucket-list fetch happens, the
scan never matches, no upload request is issued, and the call fails with
`BackblazeException ("Unknown bucket None")`. -/
theorem upload_no_bucket_args {α : Type} (bl : List BucketInfo)
    (upload : String → Except B2Error α) :
    upload_file (.ok bl) upload ClientState.init none none
      = (.error (.backblazeException ("Unknown bucket None")), none,
          ⟨some bl⟩, 1) := by
  simp only [upload_file, get_bucket_from_name, list_buckets,
    ClientState.init, find?_name_none, pyFStr]
  rfl

/-- Claim C10: `close` on a client whose session was never created is a
no-op (and total, hence it cannot fail); it closes the session exactly
when one exists; `__aexit__` always delegates to `close`. -/
theorem close_never_fails :
    close ⟨none⟩ = ⟨none⟩ ∧ (∀ h, aexit h = close h)
    ∧ (∀ b, close ⟨some b⟩ = ⟨some true⟩) :=
  ⟨rfl, fun _ => rfl, fun _ => rfl⟩

end Aiob2
